import Mathlib

/-!
Verification of the interactive particle system: the frontend morph
controller and gesture engine (main.js), the GPU displacement kernel
(particle.vert.glsl) and the recording/upload flow (main.js plus the
Express backend).

Shallow embedding conventions: JS/GLSL float values are modeled as exact
rationals; the per-particle GPU buffers (Float32Array of length
NUM_PARTICLES * 3) as functions from particle index to 3-vectors; the
particleTemplates object as its fixed key set, with the trig/Math.random
evaluations inside each generator abstracted by an explicit sampling
parameter (no claim depends on the sampled values, only on how the
controller moves them); a JS statement that throws is modeled by an
outcome carrying the mutations already performed plus the thrown message.
-/

namespace ParticleSystem

/-- A 3-component vector (GLSL vec3 / THREE.Vector3), components exact ℚ. -/
structure Vec3 where
  x : ℚ
  y : ℚ
  z : ℚ
deriving DecidableEq, Repr

/-- const NUM_PARTICLES = 150000 -/
def NUM_PARTICLES : Nat := 150000

/-- const MORPH_DURATION = 1.0 (seconds) -/
def MORPH_DURATION : ℚ := 1

/-- Object.keys(particleTemplates): the template table's keys in insertion
order: heart, spiral, ring, fireworks. -/
def templateKeys : List String := ["heart", "spiral", "ring", "fireworks"]

/-- The particleTemplates object. Each known key holds a generator
i ↦ position; the generator bodies evaluate trig and Math.random, which we
abstract as the sampling parameter gen (the values those evaluations
produce on this occasion). Indexing with an unknown key yields JS
undefined, modeled as none. -/
def particleTemplates (gen : String → Nat → Vec3) (name : String) :
    Option (Nat → Vec3) :=
  if name ∈ templateKeys then some (gen name) else none

/-- MorphState plus the per-particle buffers: module-level variables
currentTemplateName, targetTemplateName, morphTime, the uMorphFactor
uniform, and the startPosition / endPosition instanced attributes. -/
structure MorphSys where
  currentTemplateName : String
  targetTemplateName : String
  morphTime : ℚ
  uMorphFactor : ℚ
  startPosition : Nat → Vec3
  endPosition : Nat → Vec3

/-- Result of a changeParticleTemplate call: the state after the call
returns or after an exception escapes, plus the thrown message if any. -/
structure ChangeOutcome where
  state : MorphSys
  thrown : Option String

/-- changeParticleTemplate(newTemplateName), main.js lines 224-255.
Early return when the request names the current template. Otherwise the
loop shifts every particle's end position into its start position and
samples the new target into the end position; with an unknown template
name, particleTemplates[endName] is undefined and the call
newTargetTemplate(0) throws a TypeError on iteration i = 0, after the
loop body has already shifted particle 0's start position. On the
successful path, currentTemplateName is reassigned its own value,
targetTemplateName becomes the request and morphTime resets to 0 (the
uMorphFactor uniform is not touched here). -/
def changeParticleTemplate (gen : String → Nat → Vec3) (newTemplateName : String)
    (s : MorphSys) : ChangeOutcome :=
  if newTemplateName = s.currentTemplateName then ⟨s, none⟩
  else
    match particleTemplates gen newTemplateName with
    | some newTargetTemplate =>
        ⟨{ s with
            startPosition := fun i =>
              if i < NUM_PARTICLES then s.endPosition i else s.startPosition i
            endPosition := fun i =>
              if i < NUM_PARTICLES then newTargetTemplate i else s.endPosition i
            targetTemplateName := newTemplateName
            morphTime := 0 }, none⟩
    | none =>
        ⟨{ s with
            startPosition := fun i =>
              if i = 0 then s.endPosition 0 else s.startPosition i },
          some "TypeError: newTargetTemplate is not a function"⟩

/-- The morphing-animation block of animate(), main.js lines 430-443:
when a morph is in flight, morphTime += delta, the factor is
min(1, morphTime / MORPH_DURATION) published to uMorphFactor, and on
factor >= 1 the template name advances while the factor and morphTime
reset to 0. (The source binds morphTime and factor to lets; they are
inlined here.) -/
def animateMorphStep (delta : ℚ) (s : MorphSys) : MorphSys :=
  if s.currentTemplateName ≠ s.targetTemplateName then
    if 1 ≤ min 1 ((s.morphTime + delta) / MORPH_DURATION) then
      { s with
          currentTemplateName := s.targetTemplateName
          uMorphFactor := 0
          morphTime := 0 }
    else
      { s with
          uMorphFactor := min 1 ((s.morphTime + delta) / MORPH_DURATION)
          morphTime := s.morphTime + delta }
  else s

/-- GLSL mix(a, b, f) = a·(1−f) + b·f componentwise, as in the shader line
morphedPosition = mix(startPosition, endPosition, uMorphFactor). -/
def mix3 (a b : Vec3) (f : ℚ) : Vec3 :=
  ⟨a.x * (1 - f) + b.x * f, a.y * (1 - f) + b.y * f, a.z * (1 - f) + b.z * f⟩

/-- A degenerate sampling of the template generators (all particles at the
origin), used to instantiate the abstract sampler on concrete runs. -/
def gen0 : String → Nat → Vec3 := fun _ _ => ⟨0, 0, 0⟩

/-- A mid-morph state: morphing heart → spiral, halfway through, every
particle travelling from the origin to (1,0,0). -/
def morph0 : MorphSys where
  currentTemplateName := "heart"
  targetTemplateName := "spiral"
  morphTime := 1/2
  uMorphFactor := 1/2
  startPosition := fun _ => ⟨0, 0, 0⟩
  endPosition := fun _ => ⟨1, 0, 0⟩

/-- One MediaPipe hand landmark (normalized coordinates). -/
structure Landmark where
  x : ℚ
  y : ℚ
  z : ℚ
deriving DecidableEq, Repr

/-- One detected hand: its 21 indexed landmarks (the code reads indices
0, 4, 8, 9, 12, 16, 20). -/
abbrev Hand := Nat → Landmark

/-- gestureState: the previous horizontal index-fingertip position, and the
swipe debounce. The source keeps a boolean swipeDetected that a
setTimeout(..., 500) clears 0.5 s after the swipe fired; we model the pair
(flag, pending timer) as the wall-clock instant at which the timer clears
the flag: the flag is set at time t iff swipeClearAt = some u with t < u. -/
structure GestureState where
  prevX : Option ℚ
  swipeClearAt : Option ℚ
deriving DecidableEq, Repr

/-- The whole mutable state onResults touches: gestureState, the
uParticleSpread and uAttractionPoint uniforms, and the morph system.
(The pinch branch tries to write a vColor uniform that does not exist in
the uniforms object, so there is no color field to model: that write
throws, see onResults.) -/
structure Sys where
  gesture : GestureState
  uParticleSpread : ℚ
  uAttractionPoint : Vec3
  morph : MorphSys

/-- One delivery to onResults: zero or more hands (none models a missing
multiHandLandmarks field), the wall-clock instant of the delivery (drives
the setTimeout debounce), and the template sampler for any
changeParticleTemplate call made by a swipe. -/
structure FrameInput where
  multiHandLandmarks : Option (List Hand)
  now : ℚ
  gen : String → Nat → Vec3

/-- The value of gestureState.swipeDetected as observed at wall-clock time
t: the setTimeout scheduled at the last fire clears it at swipeClearAt. -/
def swipeDetected (g : GestureState) (t : ℚ) : Bool :=
  match g.swipeClearAt with
  | none => false
  | some u => decide (t < u)

/-- The particleSpread update, main.js lines 385-391: a closed fist
(fistDetection = false) contracts by 0.05 clamped below at 0.1, an open
palm expands by 0.05 clamped above at 5.0. -/
def updateParticleSpread (fistDetection : Bool) (v : ℚ) : ℚ :=
  if !fistDetection then max (1/10) (v - 1/20) else min 5 (v + 1/20)

/-- JS Array.prototype.indexOf: first index of the element, -1 if absent. -/
def jsIndexOf : List String → String → Int
  | [], _ => -1
  | k :: rest, a =>
      if k = a then 0
      else
        let r := jsIndexOf rest a
        if r = -1 then -1 else r + 1

/-- The swipe branch of onResults, main.js lines 393-408: with a previous
x position recorded, a horizontal delta beyond 0.05 while the debounce
flag is clear fires a shape-change request (next/previous key in the
template table's cyclic order) and schedules the flag to clear 0.5 s
later. Returns the updated system and whether a request fired. -/
def swipeStep (inp : FrameInput) (indexTipX : ℚ) (s : Sys) : Sys × Bool :=
  match s.gesture.prevX with
  | none => (s, false)
  | some prevX =>
      let deltaX := indexTipX - prevX
      if 1/20 < |deltaX| ∧ swipeDetected s.gesture inp.now = false then
        let currentIndex := jsIndexOf templateKeys s.morph.currentTemplateName
        let nextIndex :=
          ((currentIndex + (if 0 < deltaX then 1 else -1) +
            (templateKeys.length : Int)) % (templateKeys.length : Int)).toNat
        let res := changeParticleTemplate inp.gen
          (templateKeys.getD nextIndex "heart") s.morph
        ({ s with
            morph := res.state
            gesture := { s.gesture with swipeClearAt := some (inp.now + 1/2) } },
          true)
      else (s, false)

/-- Result of one onResults delivery: the state after the handler returns
(or after an exception escapes), whether a shape-change request fired, and
the thrown message if any. -/
structure OnResultsOut where
  state : Sys
  fired : Bool
  thrown : Option String

/-- onResults(results), main.js lines 360-416. No hand: reset prevX and
return. Otherwise, in source order: the pinch check (a pinch writes
particles.material.uniforms.vColor.value, but the uniforms object has no
vColor key, so the write throws a TypeError that aborts the rest of the
handler); the open/closed-hand spread update; the swipe branch; then the
unconditional prevX and attraction-point updates. The comparison
pinchDist < 0.05 on the Euclidean distance is modeled as
pinchDistSq < 0.0025 on its square. -/
def onResults (inp : FrameInput) (s : Sys) : OnResultsOut :=
  match inp.multiHandLandmarks with
  | none => ⟨{ s with gesture := { s.gesture with prevX := none } }, false, none⟩
  | some [] => ⟨{ s with gesture := { s.gesture with prevX := none } }, false, none⟩
  | some (landmarks :: _) =>
      let indexTip := landmarks 8
      let thumbTip := landmarks 4
      let wrist := landmarks 0
      let pinchDistSq := (indexTip.x - thumbTip.x)^2 + (indexTip.y - thumbTip.y)^2
      if pinchDistSq < 1/400 then
        ⟨s, false, some "TypeError: cannot set value of undefined uniforms.vColor"⟩
      else
        let fingerTipYSum := (landmarks 4).y + (landmarks 8).y + (landmarks 12).y +
          (landmarks 16).y + (landmarks 20).y
        let fistDetection := decide (wrist.y + 1/10 < fingerTipYSum / 5)
        let s1 := { s with
          uParticleSpread := updateParticleSpread fistDetection s.uParticleSpread }
        let r := swipeStep inp indexTip.x s1
        ⟨{ r.1 with
            gesture := { r.1.gesture with prevX := some indexTip.x }
            uAttractionPoint :=
              ⟨((landmarks 9).x - 1/2) * (-30), ((landmarks 9).y - 1/2) * (-30), 0⟩ },
          r.2, none⟩

/-- Feeding a stream of landmark deliveries through onResults, counting
the shape-change requests fired by swipes. -/
def runFrames (frames : List FrameInput) (s : Sys) : Sys × Nat :=
  match frames with
  | [] => (s, 0)
  | f :: rest =>
      let out := onResults f s
      let r := runFrames rest out.state
      (r.1, (if out.fired then 1 else 0) + r.2)

/-- The earliest wall-clock instant at which the next swipe can fire,
given that all remaining deliveries happen at time ≥ lo: the debounce
timer, when pending, pushes it to its clearing instant. -/
def nextFireLB (s : Sys) (lo : ℚ) : ℚ :=
  match s.gesture.swipeClearAt with
  | none => lo
  | some u => max lo u

/-- A concrete quiescent gesture state. -/
def gesture0 : GestureState where
  prevX := none
  swipeClearAt := none

/-- A concrete full system state: quiescent gestures, spread 1.0 (the
initial uniform value), attraction at the origin, mid-morph morph0. -/
def sys0 : Sys where
  gesture := gesture0
  uParticleSpread := 1
  uAttractionPoint := ⟨0, 0, 0⟩
  morph := morph0

/-- A concrete no-hand delivery at time 0. -/
def frame0 : FrameInput where
  multiHandLandmarks := none
  now := 0
  gen := gen0

/-- A concrete hand that pinches nothing and classifies as open: the
wrist at y = 0, every fingertip at y = 1 (mean fingertip y = 1 exceeds
wrist.y + 0.1), and the thumb tip horizontally far from the index tip so
the pinch distance is 1/2. -/
def openHand : Hand := fun i =>
  if i = 0 then ⟨1/2, 0, 0⟩
  else if i = 4 then ⟨0, 1, 0⟩
  else ⟨1/2, 1, 0⟩

/-- A delivery carrying openHand at time 0. -/
def frame1 : FrameInput where
  multiHandLandmarks := some [openHand]
  now := 0
  gen := gen0

/-- GLSL dot(a, b). -/
def dot3 (a b : Vec3) : ℚ := a.x * b.x + a.y * b.y + a.z * b.z

/-- Componentwise vector sum. -/
def add3 (a b : Vec3) : Vec3 := ⟨a.x + b.x, a.y + b.y, a.z + b.z⟩

/-- Componentwise vector difference. -/
def sub3 (a b : Vec3) : Vec3 := ⟨a.x - b.x, a.y - b.y, a.z - b.z⟩

/-- Scalar times vector. -/
def smul3 (c : ℚ) (v : Vec3) : Vec3 := ⟨c * v.x, c * v.y, c * v.z⟩

/-- The vertex shader's position pipeline before the attraction step
(particle.vert.glsl main): morphedPosition = mix(start, end, uMorphFactor);
newPos.y += uGravity * uTime; newPos += noise * uParticleSpread, where
noise is the vec3 of the three snoise evaluations, abstracted here as the
parameter noiseV (snoise is declared but its body is not in the source). -/
def noisyPos (startP endP : Vec3) (uMorphFactor uGravity uTime uParticleSpread : ℚ)
    (noiseV : Vec3) : Vec3 :=
  let morphed := mix3 startP endP uMorphFactor
  add3 ⟨morphed.x, morphed.y + uGravity * uTime, morphed.z⟩
    (smul3 uParticleSpread noiseV)

/-- vec3 directionToAttractor = uAttractionPoint - newPos. -/
def directionToAttractor (uAttractionPoint newPos : Vec3) : Vec3 :=
  sub3 uAttractionPoint newPos

/-- Division that records the division-by-zero case instead of defaulting. -/
def qdivChecked (a b : ℚ) : Option ℚ := if b = 0 then none else some (a / b)

/-- float force = 1.0 / (distSq + 1.0), with distSq = dot(d, d): the one
division in the force computation, checked. -/
def attractForce (d : Vec3) : Option ℚ := qdivChecked 1 (dot3 d d + 1)

/-- The squared magnitude of the added attraction term
normalize(directionToAttractor) * force * 0.5. GLSL normalize(d) is
d / length(d): it divides by length(d) = sqrt(dot(d, d)), which is zero —
an undefined result — exactly when dot(d, d) = 0. When defined, the
normalized vector has unit length, so the term's squared magnitude is
(force * 0.5)^2, which is exactly representable in ℚ (the unit vector
itself is irrational in general, so we track its length instead of its
components). -/
def attractTermMagSq (d : Vec3) : Option ℚ :=
  if dot3 d d = 0 then none
  else (attractForce d).map fun f => (f * (1/2))^2

/-! ### Recording session manager -/

/-- recordingStatus values used by main.js. -/
inductive RecStatus
  | idle
  | recording
  | uploading
  | error
deriving DecidableEq, Repr

/-- The recording session's mutable module state: recordingStatus, the
recordedChunks array (each chunk abstracted to its byte size), and the
text of the recording-status DOM element, which is where the code retains
the last failure reason. -/
structure RecSession where
  recordingStatus : RecStatus
  recordedChunks : List Nat
  statusText : String
deriving DecidableEq, Repr

/-- mediaRecorder.ondataavailable, main.js lines 288-292: append the
delivered chunk when its size is positive, ignore empty chunks. -/
def ondataavailable (size : Nat) (chunks : List Nat) : List Nat :=
  if 0 < size then chunks ++ [size] else chunks

/-- Outcome of the fetch to BACKEND_URL/upload-video as uploadRecording
observes it: an ok JSON response; a non-ok response whose parsed body
carries data.message (possibly empty, JS falsy); or a rejection of the
fetch / body parse (transport failure), whose Error carries a message. -/
inductive UploadOutcome
  | ok (message : String)
  | httpError (message : String)
  | transportError (message : String)
deriving DecidableEq, Repr

/-- uploadRecording, main.js lines 319-356, as a function of the session
state and the upload outcome; the returned Bool records whether an upload
request was issued at all. With no chunks: warn, go idle, return without
fetching. Otherwise the chunk array is cleared before the fetch; an ok
response goes to idle; a non-ok response throws
Error(data.message || 'Unknown upload error') into the same catch as a
transport failure, which sets status error and retains
`Upload Failed: ` + the first 30 chars of the message + `...`. -/
def uploadRecording (outcome : UploadOutcome) (s : RecSession) :
    RecSession × Bool :=
  if s.recordedChunks = [] then
    ({ s with recordingStatus := .idle, statusText := "Recording: Idle" }, false)
  else
    match outcome with
    | .ok _ =>
        ({ recordingStatus := .idle, recordedChunks := [],
           statusText := "Recording: Uploaded!" }, true)
    | .httpError m =>
        let msg := if m = "" then "Unknown upload error" else m
        ({ recordingStatus := .error, recordedChunks := [],
           statusText := "Upload Failed: " ++ msg.take 30 ++ "..." }, true)
    | .transportError m =>
        ({ recordingStatus := .error, recordedChunks := [],
           statusText := "Upload Failed: " ++ m.take 30 ++ "..." }, true)

/-- stopRecording, main.js lines 309-317: only with a mediaRecorder in
hand and status 'recording' does it stop the recorder and move to
'uploading'; in every other state it silently does nothing. -/
def stopRecording (hasRecorder : Bool) (s : RecSession) : RecSession :=
  if hasRecorder = true ∧ s.recordingStatus = .recording then
    { s with recordingStatus := .uploading,
             statusText := "Recording: Stopping & Uploading..." }
  else s

/-- startRecording, main.js lines 260-307: with no video stream it reports
failure and keeps the current status; otherwise constructing and starting
the MediaRecorder either succeeds (status 'recording') or throws into the
catch (status 'error'). It performs no state-machine precondition check of
its own. -/
def startRecording (hasVideoStream recorderOk : Bool) (s : RecSession) :
    RecSession :=
  if hasVideoStream = false then
    { s with statusText := "Recording: Failed (No Stream)" }
  else if recorderOk = true then
    { s with recordingStatus := .recording, statusText := "Recording: Active" }
  else
    { s with recordingStatus := .error, statusText := "Recording: Error" }

/-- Which session call the R-key handler makes. -/
inductive KeyAction
  | callStart
  | callStop
  | noCall
deriving DecidableEq, Repr

/-- The keydown listener for 'r'/'R', main.js lines 457-465: stop while
recording, start while idle, and silently nothing in any other state — in
particular nothing from the error state. -/
def keydownR (s : RecSession) : KeyAction :=
  if s.recordingStatus = .recording then .callStop
  else if s.recordingStatus = .idle then .callStart
  else .noCall

/-- A concrete session sitting in the error state. -/
def errorSession : RecSession where
  recordingStatus := .error
  recordedChunks := []
  statusText := ""

/-- A concrete finished session holding three chunks, about to upload. -/
def chunkSession : RecSession where
  recordingStatus := .uploading
  recordedChunks := [7, 3, 9]
  statusText := ""

/-- A concrete session that stopped without accumulating any chunk. -/
def stoppedEmptySession : RecSession where
  recordingStatus := .uploading
  recordedChunks := []
  statusText := ""

/-! ### Theorems -/

/-- C1 counterexample: re-triggering mid-morph (factor 1/2, particles
travelling from the origin to (1,0,0)) makes the new startPosition of
particle 0 the old endPosition (1,0,0), not the currently interpolated
position (1/2,0,0): the positional discontinuity at the trigger instant is
1/2, not zero. -/
theorem retrigger_start_not_interpolated :
    (changeParticleTemplate gen0 "ring" morph0).state.startPosition 0 ≠
      mix3 (morph0.startPosition 0) (morph0.endPosition 0) morph0.uMorphFactor := by
  have h1 : (changeParticleTemplate gen0 "ring" morph0).state.startPosition 0 =
      ⟨1, 0, 0⟩ := by
    simp [changeParticleTemplate, particleTemplates, templateKeys, morph0,
      NUM_PARTICLES]
  have h2 : mix3 (morph0.startPosition 0) (morph0.endPosition 0)
      morph0.uMorphFactor = ⟨1/2, 0, 0⟩ := by
    simp [mix3, morph0, Vec3.mk.injEq]
  rw [h1, h2]
  intro h
  have hx := congrArg Vec3.x h
  norm_num at hx

/-- C1 (amended): a shape-change request equal to currentTemplateName (the
shape the morph started from) is ignored entirely; a request for a known
shape different from currentTemplateName starts a fresh morph whose
per-particle startPosition set is the previous endPosition set (the old
target's positions, not the interpolated positions), whose endPosition set
is the new shape's sample, with targetTemplateName updated,
currentTemplateName kept, and elapsed morphTime reset to 0. -/
theorem changeParticleTemplate_spec (gen : String → Nat → Vec3) (newName : String)
    (s : MorphSys) :
    (newName = s.currentTemplateName →
      changeParticleTemplate gen newName s = ⟨s, none⟩) ∧
    (newName ≠ s.currentTemplateName → newName ∈ templateKeys →
      (changeParticleTemplate gen newName s).thrown = none ∧
      (∀ i, i < NUM_PARTICLES →
        (changeParticleTemplate gen newName s).state.startPosition i = s.endPosition i) ∧
      (∀ i, i < NUM_PARTICLES →
        (changeParticleTemplate gen newName s).state.endPosition i = gen newName i) ∧
      (changeParticleTemplate gen newName s).state.currentTemplateName =
        s.currentTemplateName ∧
      (changeParticleTemplate gen newName s).state.targetTemplateName = newName ∧
      (changeParticleTemplate gen newName s).state.morphTime = 0) := by
  constructor
  · intro h
    unfold changeParticleTemplate
    rw [if_pos h]
  · intro hne hmem
    have hsome : particleTemplates gen newName = some (gen newName) := if_pos hmem
    have hred : changeParticleTemplate gen newName s =
        ⟨{ s with
            startPosition := fun i =>
              if i < NUM_PARTICLES then s.endPosition i else s.startPosition i
            endPosition := fun i =>
              if i < NUM_PARTICLES then gen newName i else s.endPosition i
            targetTemplateName := newName
            morphTime := 0 }, none⟩ := by
      unfold changeParticleTemplate
      rw [if_neg hne, hsome]
    rw [hred]
    exact ⟨rfl, fun i hi => if_pos hi, fun i hi => if_pos hi, rfl, rfl, rfl⟩

/-- C1 witness: concrete applications of changeParticleTemplate_spec — the
mid-morph request back to "heart" is a no-op, and the request for "ring"
resets morphTime and copies the old end position into the start buffer. -/
theorem changeParticleTemplate_spec_witness :
    changeParticleTemplate gen0 "heart" morph0 = ⟨morph0, none⟩ ∧
    (changeParticleTemplate gen0 "ring" morph0).state.morphTime = 0 ∧
    (changeParticleTemplate gen0 "ring" morph0).state.startPosition 5 =
      morph0.endPosition 5 := by
  refine ⟨(changeParticleTemplate_spec gen0 "heart" morph0).1 rfl, ?_, ?_⟩
  · exact ((changeParticleTemplate_spec gen0 "ring" morph0).2 (by decide)
      (by decide)).2.2.2.2.2
  · exact ((changeParticleTemplate_spec gen0 "ring" morph0).2 (by decide)
      (by decide)).2.1 5 (by decide)

/-- C2: one frame of the morphing-animation block keeps the published morph
factor in [0,1]; while morphing without completing, the factor is
non-decreasing relative to the previously published value
min 1 (morphTime / MORPH_DURATION); and on reaching the full duration the
current template becomes the target while the factor and morphTime reset to
exactly 0. -/
theorem morphFactor_step_invariants (delta : ℚ) (s : MorphSys)
    (hd : 0 ≤ delta) (ht : 0 ≤ s.morphTime)
    (hf0 : 0 ≤ s.uMorphFactor) (hf1 : s.uMorphFactor ≤ 1) :
    (0 ≤ (animateMorphStep delta s).uMorphFactor ∧
      (animateMorphStep delta s).uMorphFactor ≤ 1) ∧
    (s.currentTemplateName ≠ s.targetTemplateName →
      s.uMorphFactor = min 1 (s.morphTime / MORPH_DURATION) →
      s.morphTime + delta < MORPH_DURATION →
      s.uMorphFactor ≤ (animateMorphStep delta s).uMorphFactor) ∧
    (s.currentTemplateName ≠ s.targetTemplateName →
      MORPH_DURATION ≤ s.morphTime + delta →
      (animateMorphStep delta s).currentTemplateName = s.targetTemplateName ∧
      (animateMorphStep delta s).uMorphFactor = 0 ∧
      (animateMorphStep delta s).morphTime = 0) := by
  unfold animateMorphStep MORPH_DURATION
  by_cases hm : s.currentTemplateName ≠ s.targetTemplateName
  · rw [if_pos hm]
    by_cases hc : 1 ≤ min 1 ((s.morphTime + delta) / 1)
    · rw [if_pos hc]
      have h1 : (1:ℚ) ≤ s.morphTime + delta := by
        have h2 := hc.trans (min_le_right 1 ((s.morphTime + delta) / 1))
        rwa [div_one] at h2
      refine ⟨⟨le_refl 0, zero_le_one⟩, ?_, fun _ _ => ⟨rfl, rfl, rfl⟩⟩
      intro _ _ hlt
      exact absurd h1 (not_le.mpr hlt)
    · rw [if_neg hc]
      push_neg at hc
      refine ⟨⟨?_, min_le_left _ _⟩, ?_, ?_⟩
      · show (0:ℚ) ≤ min 1 ((s.morphTime + delta) / 1)
        refine le_min zero_le_one ?_
        rw [div_one]
        linarith
      · intro _ hfac _
        show s.uMorphFactor ≤ min 1 ((s.morphTime + delta) / 1)
        rw [hfac, div_one, div_one]
        exact min_le_min (le_refl 1) (by linarith)
      · intro _ hge
        exact absurd (le_min le_rfl (by rw [div_one]; exact hge)) (not_le.mpr hc)
  · rw [if_neg hm]
    exact ⟨⟨hf0, hf1⟩, fun hmm => absurd hmm hm, fun hmm => absurd hmm hm⟩

/-- C2 witness: on the concrete mid-morph state morph0 a quarter-second
frame keeps the factor monotone and bounded, and a half-second frame
completes the morph, advancing the template name. -/
theorem morphFactor_step_invariants_witness :
    morph0.uMorphFactor ≤ (animateMorphStep (1/4) morph0).uMorphFactor ∧
    (animateMorphStep (1/4) morph0).uMorphFactor ≤ 1 ∧
    (animateMorphStep (1/2) morph0).currentTemplateName =
      morph0.targetTemplateName := by
  have h1 := morphFactor_step_invariants (1/4) morph0 (by norm_num)
    (by norm_num [morph0]) (by norm_num [morph0]) (by norm_num [morph0])
  have h2 := morphFactor_step_invariants (1/2) morph0 (by norm_num)
    (by norm_num [morph0]) (by norm_num [morph0]) (by norm_num [morph0])
  refine ⟨?_, h1.1.2, ?_⟩
  · refine h1.2.1 (by decide) ?_ (by norm_num [morph0, MORPH_DURATION])
    show (1:ℚ)/2 = min 1 ((1/2) / 1)
    rw [div_one, min_eq_right (by norm_num : (1:ℚ)/2 ≤ 1)]
  · exact (h2.2.2 (by decide) (by norm_num [morph0, MORPH_DURATION])).1

/-- C6 counterexample: a request with the unknown identifier "star" is not
rejected cleanly at the template-table boundary: the call throws a
TypeError and particle 0's startPosition has already been overwritten
(with its endPosition), so the per-particle buffers are not left
unchanged. -/
theorem unknown_template_mutates_buffer :
    (changeParticleTemplate gen0 "star" morph0).thrown ≠ none ∧
    (changeParticleTemplate gen0 "star" morph0).state.startPosition 0 ≠
      morph0.startPosition 0 := by
  constructor
  · simp [changeParticleTemplate, particleTemplates, templateKeys, morph0]
  · have h1 : (changeParticleTemplate gen0 "star" morph0).state.startPosition 0 =
        ⟨1, 0, 0⟩ := by
      simp [changeParticleTemplate, particleTemplates, templateKeys, morph0]
    have h2 : morph0.startPosition 0 = ⟨0, 0, 0⟩ := rfl
    rw [h1, h2]
    intro h
    have hx := congrArg Vec3.x h
    norm_num at hx

/-- C6 (amended): a request with an unknown identifier different from the
current template throws a TypeError from inside the update loop; the
MorphState identifiers, morphTime, factor and the whole endPosition buffer
are unchanged (so no unknown name ever becomes the target and no empty
shape is produced), but the startPosition buffer is partially mutated:
particle 0's startPosition has become its endPosition. -/
theorem changeParticleTemplate_unknown_spec (gen : String → Nat → Vec3)
    (newName : String) (s : MorphSys)
    (hne : newName ≠ s.currentTemplateName) (hunk : newName ∉ templateKeys) :
    (changeParticleTemplate gen newName s).thrown =
      some "TypeError: newTargetTemplate is not a function" ∧
    (changeParticleTemplate gen newName s).state.currentTemplateName =
      s.currentTemplateName ∧
    (changeParticleTemplate gen newName s).state.targetTemplateName =
      s.targetTemplateName ∧
    (changeParticleTemplate gen newName s).state.morphTime = s.morphTime ∧
    (changeParticleTemplate gen newName s).state.uMorphFactor = s.uMorphFactor ∧
    (∀ i, (changeParticleTemplate gen newName s).state.endPosition i =
      s.endPosition i) ∧
    (∀ i, i ≠ 0 →
      (changeParticleTemplate gen newName s).state.startPosition i =
        s.startPosition i) ∧
    (changeParticleTemplate gen newName s).state.startPosition 0 =
      s.endPosition 0 := by
  have hnone : particleTemplates gen newName = none := if_neg hunk
  have hred : changeParticleTemplate gen newName s =
      ⟨{ s with
          startPosition := fun i =>
            if i = 0 then s.endPosition 0 else s.startPosition i },
        some "TypeError: newTargetTemplate is not a function"⟩ := by
    unfold changeParticleTemplate
    rw [if_neg hne, hnone]
  rw [hred]
  exact ⟨rfl, rfl, rfl, rfl, rfl, fun i => rfl, fun i hi => if_neg hi, by simp⟩

/-- C6 witness: the amended statement evaluated on the concrete mid-morph
state with the unknown identifier "star". -/
theorem changeParticleTemplate_unknown_spec_witness :
    (changeParticleTemplate gen0 "star" morph0).thrown =
      some "TypeError: newTargetTemplate is not a function" ∧
    (changeParticleTemplate gen0 "star" morph0).state.targetTemplateName =
      morph0.targetTemplateName ∧
    (changeParticleTemplate gen0 "star" morph0).state.startPosition 0 =
      morph0.endPosition 0 := by
  have h := changeParticleTemplate_unknown_spec gen0 "star" morph0 (by decide)
    (by decide)
  exact ⟨h.1, h.2.2.1, h.2.2.2.2.2.2.2⟩

/-- C5: a delivery with no detected hand (missing or empty
multiHandLandmarks) only resets gestureState.prevX to null: the spread and
attraction uniforms, the morph state and the debounce timer are all left
exactly as they were, no shape-change fires and nothing is thrown. -/
theorem onResults_noHand (inp : FrameInput) (s : Sys)
    (h : inp.multiHandLandmarks = none ∨ inp.multiHandLandmarks = some []) :
    onResults inp s =
      ⟨{ s with gesture := { s.gesture with prevX := none } }, false, none⟩ := by
  unfold onResults
  rcases h with h | h <;> rw [h]

/-- C5 witness: the no-hand delivery frame0 applied to the concrete state
sys0. -/
theorem onResults_noHand_witness :
    onResults frame0 sys0 =
      ⟨{ sys0 with gesture := { sys0.gesture with prevX := none } }, false, none⟩ :=
  onResults_noHand frame0 sys0 (Or.inl rfl)

lemma updateParticleSpread_mem (b : Bool) (v : ℚ) (h0 : 1/10 ≤ v) (h1 : v ≤ 5) :
    1/10 ≤ updateParticleSpread b v ∧ updateParticleSpread b v ≤ 5 := by
  unfold updateParticleSpread
  cases b
  · simp only [Bool.not_false, if_true]
    exact ⟨le_max_left _ _, max_le (by norm_num) (by linarith)⟩
  · simp only [Bool.not_true, if_false]
    exact ⟨le_min (by norm_num) (by linarith), min_le_left _ _⟩

lemma swipeStep_uParticleSpread (inp : FrameInput) (ix : ℚ) (s : Sys) :
    (swipeStep inp ix s).1.uParticleSpread = s.uParticleSpread := by
  unfold swipeStep
  rcases hp : s.gesture.prevX with _ | px
  · simp [hp]
  · simp only [hp]
    by_cases hc : 1/20 < |ix - px| ∧ swipeDetected s.gesture inp.now = false
    · rw [if_pos hc]
    · rw [if_neg hc]

lemma onResults_spread_mem (inp : FrameInput) (s : Sys)
    (h0 : 1/10 ≤ s.uParticleSpread) (h1 : s.uParticleSpread ≤ 5) :
    1/10 ≤ (onResults inp s).state.uParticleSpread ∧
      (onResults inp s).state.uParticleSpread ≤ 5 := by
  unfold onResults
  rcases hm : inp.multiHandLandmarks with _ | ⟨_ | ⟨lm, rest⟩⟩ <;> simp only [hm]
  · exact ⟨h0, h1⟩
  · exact ⟨h0, h1⟩
  · split
    · exact ⟨h0, h1⟩
    · rw [swipeStep_uParticleSpread]
      exact updateParticleSpread_mem _ _ h0 h1

/-- C3: over any stream of landmark deliveries, the particleSpread uniform
stays within its configured bound [0.1, 5.0] after every update, provided
it starts within the bound (each open classification adds 0.05 clamped at
5.0, each closed classification subtracts 0.05 clamped at 0.1, and
no-hand or throwing frames leave it untouched). -/
theorem particleSpread_bounded (frames : List FrameInput) (s : Sys)
    (h0 : 1/10 ≤ s.uParticleSpread) (h1 : s.uParticleSpread ≤ 5) :
    1/10 ≤ (runFrames frames s).1.uParticleSpread ∧
      (runFrames frames s).1.uParticleSpread ≤ 5 := by
  induction frames generalizing s with
  | nil => exact ⟨h0, h1⟩
  | cons f rest ih =>
      have h := onResults_spread_mem f s h0 h1
      exact ih (onResults f s).state h.1 h.2

/-- C3 witness: one open-hand delivery on the concrete state sys0 (spread
1.0) stays within [0.1, 5.0]. -/
theorem particleSpread_bounded_witness :
    1/10 ≤ (runFrames [frame1] sys0).1.uParticleSpread ∧
      (runFrames [frame1] sys0).1.uParticleSpread ≤ 5 :=
  particleSpread_bounded [frame1] sys0 (by norm_num [sys0]) (by norm_num [sys0])

lemma swipeStep_clearAt (inp : FrameInput) (ix : ℚ) (s : Sys) :
    ((swipeStep inp ix s).2 = true →
      (swipeStep inp ix s).1.gesture.swipeClearAt = some (inp.now + 1/2) ∧
      swipeDetected s.gesture inp.now = false) ∧
    ((swipeStep inp ix s).2 = false →
      (swipeStep inp ix s).1.gesture.swipeClearAt = s.gesture.swipeClearAt) := by
  unfold swipeStep
  rcases hp : s.gesture.prevX with _ | px <;> simp only [hp]
  · simp
  · by_cases hc : 1/20 < |ix - px| ∧ swipeDetected s.gesture inp.now = false
    · rw [if_pos hc]
      exact ⟨fun _ => ⟨rfl, hc.2⟩, fun hf => absurd hf (by simp)⟩
    · rw [if_neg hc]
      exact ⟨fun ht => absurd ht (by simp), fun _ => rfl⟩

lemma onResults_clearAt (inp : FrameInput) (s : Sys) :
    ((onResults inp s).fired = true →
      (onResults inp s).state.gesture.swipeClearAt = some (inp.now + 1/2) ∧
      swipeDetected s.gesture inp.now = false) ∧
    ((onResults inp s).fired = false →
      (onResults inp s).state.gesture.swipeClearAt = s.gesture.swipeClearAt) := by
  unfold onResults
  rcases hm : inp.multiHandLandmarks with _ | ⟨_ | ⟨lm, rest⟩⟩ <;> simp only [hm]
  · simp
  · simp
  · split
    · simp
    · exact swipeStep_clearAt inp (lm 8).x _

lemma swipeDetected_false_le (g : GestureState) (t u : ℚ)
    (h : swipeDetected g t = false) (hu : g.swipeClearAt = some u) : u ≤ t := by
  unfold swipeDetected at h
  rw [hu] at h
  simp only [decide_eq_false_iff_not] at h
  exact le_of_not_lt h

lemma runFrames_count_le (frames : List FrameInput) :
    ∀ (s : Sys) (lo : ℚ) (k : ℕ),
      List.Pairwise (fun a b : FrameInput => a.now ≤ b.now) frames →
      (∀ f ∈ frames, lo ≤ f.now ∧ f.now < 2) →
      (2 : ℚ) ≤ nextFireLB s lo + k / 2 →
      (runFrames frames s).2 ≤ k := by
  induction frames with
  | nil =>
      intro s lo k _ _ _
      simp [runFrames]
  | cons f rest ih =>
      intro s lo k hsort hwin hk
      obtain ⟨hfr, hsort'⟩ := List.pairwise_cons.mp hsort
      have hf := hwin f (List.mem_cons_self f rest)
      have hwin' : ∀ g ∈ rest, f.now ≤ g.now ∧ g.now < 2 :=
        fun g hg => ⟨hfr g hg, (hwin g (List.mem_cons_of_mem f hg)).2⟩
      by_cases hfired : (onResults f s).fired = true
      · obtain ⟨hcl, hdet⟩ := (onResults_clearAt f s).1 hfired
        have hge : nextFireLB s lo ≤ f.now := by
          unfold nextFireLB
          rcases hca : s.gesture.swipeClearAt with _ | u <;> simp only [hca]
          · exact hf.1
          · exact max_le hf.1 (swipeDetected_false_le s.gesture f.now u hdet hca)
        obtain ⟨j, rfl⟩ : ∃ j, k = j + 1 := by
          rcases k with _ | j
          · exfalso
            have h2 : (2:ℚ) ≤ nextFireLB s lo := by simpa using hk
            linarith [hf.2]
          · exact ⟨j, rfl⟩
        have hrec : (runFrames rest (onResults f s).state).2 ≤ j := by
          apply ih (onResults f s).state f.now j hsort' hwin'
          have hnf : nextFireLB (onResults f s).state f.now = f.now + 1/2 := by
            unfold nextFireLB
            rw [hcl]
            exact max_eq_right (by linarith)
          rw [hnf]
          push_cast at hk ⊢
          linarith
        have hcount : (runFrames (f :: rest) s).2 =
            1 + (runFrames rest (onResults f s).state).2 := by
          simp [runFrames, hfired]
        omega
      · simp only [Bool.not_eq_true] at hfired
        have hcl := (onResults_clearAt f s).2 hfired
        have hrec : (runFrames rest (onResults f s).state).2 ≤ k := by
          apply ih (onResults f s).state f.now k hsort' hwin'
          have hmono : nextFireLB s lo ≤ nextFireLB (onResults f s).state f.now := by
            unfold nextFireLB
            rw [hcl]
            rcases hca : s.gesture.swipeClearAt with _ | u <;> simp only [hca]
            · exact hf.1
            · exact max_le_max hf.1 le_rfl
          linarith
        have hcount : (runFrames (f :: rest) s).2 =
            (runFrames rest (onResults f s).state).2 := by
          simp [runFrames, hfired]
        omega

/-- C9: swipe-triggered shape changes are rate-limited by the wall-clock
setTimeout debounce, not by frame count: over any time-ordered landmark
stream delivered during a 2-second window [0, 2) — no matter how many
frames it contains or how large each per-frame delta is — at most
2 / 0.5 = 4 shape-change requests fire, because each fire blocks further
fires until its clearing instant 0.5 s later. -/
theorem swipe_rate_limit (frames : List FrameInput) (s : Sys)
    (hsort : List.Pairwise (fun a b : FrameInput => a.now ≤ b.now) frames)
    (hwin : ∀ f ∈ frames, 0 ≤ f.now ∧ f.now < 2) :
    (runFrames frames s).2 ≤ 4 := by
  apply runFrames_count_le frames s 0 4 hsort hwin
  have h : (0:ℚ) ≤ nextFireLB s 0 := by
    unfold nextFireLB
    rcases hca : s.gesture.swipeClearAt with _ | u <;> simp only [hca]
    · exact le_rfl
    · exact le_max_left _ _
  push_cast
  linarith

/-- C9 witness: a concrete two-frame stream inside [0, 2) fires at most 4
shape-change requests. -/
theorem swipe_rate_limit_witness : (runFrames [frame0, frame1] sys0).2 ≤ 4 := by
  apply swipe_rate_limit
  · simp [frame0, frame1]
  · intro f hf
    simp only [List.mem_cons, List.not_mem_nil, or_false] at hf
    rcases hf with rfl | rfl
    · exact ⟨by norm_num [frame0], by norm_num [frame0]⟩
    · exact ⟨by norm_num [frame1], by norm_num [frame1]⟩

lemma dot3_self_nonneg (v : Vec3) : 0 ≤ dot3 v v := by
  unfold dot3
  have hx := mul_self_nonneg v.x
  have hy := mul_self_nonneg v.y
  have hz := mul_self_nonneg v.z
  linarith

lemma dot3_self_eq_zero (v : Vec3) : dot3 v v = 0 ↔ v = ⟨0, 0, 0⟩ := by
  rcases v with ⟨a, b, c⟩
  unfold dot3
  dsimp only
  simp only [Vec3.mk.injEq]
  constructor
  · intro h
    have ha := mul_self_nonneg a
    have hb := mul_self_nonneg b
    have hc := mul_self_nonneg c
    exact ⟨mul_self_eq_zero.mp (by linarith), mul_self_eq_zero.mp (by linarith),
      mul_self_eq_zero.mp (by linarith)⟩
  · rintro ⟨rfl, rfl, rfl⟩
    ring

lemma attractForce_bounds (d : Vec3) :
    ∃ fc, attractForce d = some fc ∧ 0 < fc ∧ fc ≤ 1 := by
  have hq := dot3_self_nonneg d
  have hpos : 0 < dot3 d d + 1 := by linarith
  refine ⟨1 / (dot3 d d + 1), ?_, by positivity, ?_⟩
  · unfold attractForce qdivChecked
    rw [if_neg (ne_of_gt hpos)]
  · rw [div_le_one hpos]
    linarith

lemma attractTermMagSq_none_iff (d : Vec3) :
    attractTermMagSq d = none ↔ d = ⟨0, 0, 0⟩ := by
  unfold attractTermMagSq
  by_cases h : dot3 d d = 0
  · rw [if_pos h]
    simp [(dot3_self_eq_zero d).mp h]
  · rw [if_neg h]
    obtain ⟨fc, hfc, _, _⟩ := attractForce_bounds d
    rw [hfc]
    constructor
    · intro hnone
      simp at hnone
    · intro hd
      exact absurd ((dot3_self_eq_zero d).mpr hd) h

lemma attractTermMagSq_bounds (d : Vec3) (m : ℚ)
    (hm : attractTermMagSq d = some m) : 0 ≤ m ∧ m ≤ 1/4 := by
  unfold attractTermMagSq at hm
  by_cases h : dot3 d d = 0
  · rw [if_pos h] at hm
    exact absurd hm (by simp)
  · rw [if_neg h] at hm
    obtain ⟨fc, hfc, hpos, hle⟩ := attractForce_bounds d
    rw [hfc] at hm
    simp only [Option.map_some'] at hm
    injection hm with hmeq
    rw [← hmeq]
    constructor
    · positivity
    · nlinarith

/-- C4 (amended): for every finite input of the displacement kernel, the
force division 1/(dot(d,d)+1) never divides by zero and yields a force in
(0, 1] even when the noisy particle position coincides with the attraction
point; but the added term normalize(d)·force·0.5 is undefined exactly at
that coincidence (GLSL normalize divides by the zero length), and in every
other case it is finite with squared magnitude (force/2)² ≤ 1/4. -/
theorem attraction_step_spec (startP endP att noiseV : Vec3)
    (uMorphFactor uGravity uTime uParticleSpread : ℚ) :
    (∃ fc, attractForce (directionToAttractor att
        (noisyPos startP endP uMorphFactor uGravity uTime uParticleSpread noiseV)) =
        some fc ∧ 0 < fc ∧ fc ≤ 1) ∧
    (attractTermMagSq (directionToAttractor att
        (noisyPos startP endP uMorphFactor uGravity uTime uParticleSpread noiseV)) =
        none ↔
      directionToAttractor att
        (noisyPos startP endP uMorphFactor uGravity uTime uParticleSpread noiseV) =
        ⟨0, 0, 0⟩) ∧
    (∀ m, attractTermMagSq (directionToAttractor att
        (noisyPos startP endP uMorphFactor uGravity uTime uParticleSpread noiseV)) =
        some m → 0 ≤ m ∧ m ≤ 1/4) :=
  ⟨attractForce_bounds _, attractTermMagSq_none_iff _,
    fun m hm => attractTermMagSq_bounds _ m hm⟩

/-- C4 counterexample: when the noisy particle position coincides with the
attraction point (all-zero inputs), directionToAttractor is the zero
vector and the attraction term is undefined — normalize(vec3(0)) divides
by a zero length — so the added term is not finite in all cases. -/
theorem attractTerm_undefined_at_coincidence :
    attractTermMagSq (directionToAttractor ⟨0, 0, 0⟩
      (noisyPos ⟨0, 0, 0⟩ ⟨0, 0, 0⟩ 0 0 0 0 ⟨0, 0, 0⟩)) = none := by
  norm_num [attractTermMagSq, directionToAttractor, noisyPos, mix3, add3, sub3,
    smul3, dot3]

/-- C4 witness: the amended bounds evaluated with the attraction point one
unit away from the particle: the term is defined with squared magnitude
(1/2·1/2)² = 1/16 ∈ [0, 1/4]. -/
theorem attraction_step_spec_witness :
    attractTermMagSq (directionToAttractor ⟨1, 0, 0⟩
      (noisyPos ⟨0, 0, 0⟩ ⟨0, 0, 0⟩ 0 0 0 0 ⟨0, 0, 0⟩)) = some (1/16) ∧
    (0:ℚ) ≤ 1/16 ∧ (1:ℚ)/16 ≤ 1/4 := by
  have hm : attractTermMagSq (directionToAttractor ⟨1, 0, 0⟩
      (noisyPos ⟨0, 0, 0⟩ ⟨0, 0, 0⟩ 0 0 0 0 ⟨0, 0, 0⟩)) = some (1/16) := by
    norm_num [attractTermMagSq, attractForce, qdivChecked, directionToAttractor,
      noisyPos, mix3, add3, sub3, smul3, dot3]
  exact ⟨hm, (attraction_step_spec ⟨0, 0, 0⟩ ⟨0, 0, 0⟩ ⟨1, 0, 0⟩ ⟨0, 0, 0⟩
    0 0 0 0).2.2 (1/16) hm⟩

lemma uploadFail_text_ne (x : String) : "Upload Failed: " ++ x ++ "..." ≠ "" := by
  intro h
  have hl := congrArg String.length h
  rw [String.length_append, String.length_append] at hl
  have h15 : ("Upload Failed: ").length = 15 := rfl
  have h3 : ("...").length = 3 := rfl
  have h0 : ("").length = 0 := rfl
  omega

/-- C7: for every session finishing with a non-empty chunk sequence,
upload completion determines the terminal state and always empties the
chunk buffer: an ok response ends in idle with zero retained chunks, and
a failure — HTTP rejection and transport failure alike — ends in error
with zero retained chunks and a non-empty retained failure text. -/
theorem uploadRecording_completion_spec (outcome : UploadOutcome) (s : RecSession)
    (h : s.recordedChunks ≠ []) :
    ((∃ m, outcome = .ok m) →
      (uploadRecording outcome s).1.recordingStatus = .idle ∧
      (uploadRecording outcome s).1.recordedChunks = []) ∧
    ((∀ m, outcome ≠ .ok m) →
      (uploadRecording outcome s).1.recordingStatus = .error ∧
      (uploadRecording outcome s).1.recordedChunks = [] ∧
      (uploadRecording outcome s).1.statusText ≠ "") := by
  unfold uploadRecording
  rw [if_neg h]
  rcases outcome with m | m | m
  · exact ⟨fun _ => ⟨rfl, rfl⟩, fun hno => absurd rfl (hno m)⟩
  · exact ⟨fun hok => absurd hok.choose_spec (by simp),
      fun _ => ⟨rfl, rfl, uploadFail_text_ne _⟩⟩
  · exact ⟨fun hok => absurd hok.choose_spec (by simp),
      fun _ => ⟨rfl, rfl, uploadFail_text_ne _⟩⟩

/-- C7 witness: the concrete three-chunk session ends idle on an ok
response, and ends in error with a non-empty failure text on a transport
failure. -/
theorem uploadRecording_completion_spec_witness :
    (uploadRecording (.ok "done") chunkSession).1.recordingStatus = .idle ∧
    (uploadRecording (.transportError "boom") chunkSession).1.recordingStatus =
      .error ∧
    (uploadRecording (.transportError "boom") chunkSession).1.statusText ≠ "" := by
  have h1 := (uploadRecording_completion_spec (.ok "done") chunkSession
    (by simp [chunkSession])).1 ⟨"done", rfl⟩
  have h2 := (uploadRecording_completion_spec (.transportError "boom") chunkSession
    (by simp [chunkSession])).2 (fun m => by simp)
  exact ⟨h1.1, h2.1, h2.2.2⟩

/-- C8 counterexample: with the session in the error state, pressing the
R key calls neither start nor stop — the error state is sticky on the
only start/stop control surface, contradicting that start() is accepted
exactly from idle or error. -/
theorem keydown_error_not_start : keydownR errorSession ≠ KeyAction.callStart := by
  decide

/-- C8 (amended): the R-key handler calls stop exactly when the session is
recording and start exactly when it is idle — from error or uploading the
key press silently does nothing, with no invalid-state report, so error is
sticky on the keyboard surface; and stopRecording itself is a silent
no-op in every non-recording state (never a crash). -/
theorem recording_control_spec (hasRecorder : Bool) (s : RecSession) :
    (keydownR s = .callStop ↔ s.recordingStatus = .recording) ∧
    (keydownR s = .callStart ↔ s.recordingStatus = .idle) ∧
    (s.recordingStatus ≠ .recording → stopRecording hasRecorder s = s) := by
  unfold keydownR stopRecording
  cases hst : s.recordingStatus <;> simp [hst]

/-- C8 witness: the amended behavior evaluated on the concrete error-state
session: R does nothing and stopRecording leaves the session unchanged. -/
theorem recording_control_spec_witness :
    keydownR errorSession = KeyAction.noCall ∧
    stopRecording true errorSession = errorSession := by
  have h := recording_control_spec true errorSession
  exact ⟨by decide, h.2.2 (by decide)⟩

/-- C10: a session stopped with zero accumulated chunks issues no upload
request at all: uploadRecording returns directly to idle, without
fetching, and the chunk buffer stays empty. -/
theorem uploadRecording_empty_noop (outcome : UploadOutcome) (s : RecSession)
    (h : s.recordedChunks = []) :
    uploadRecording outcome s =
      ({ s with recordingStatus := .idle, statusText := "Recording: Idle" },
        false) ∧
    (uploadRecording outcome s).1.recordedChunks = [] := by
  have h1 : uploadRecording outcome s =
      ({ s with recordingStatus := .idle, statusText := "Recording: Idle" },
        false) := by
    unfold uploadRecording
    rw [if_pos h]
  exact ⟨h1, by rw [h1]; exact h⟩

/-- C10 witness: the concrete chunkless stopped session goes straight to
idle with no request issued. -/
theorem uploadRecording_empty_noop_witness :
    (uploadRecording (.ok "done") stoppedEmptySession).2 = false ∧
    (uploadRecording (.ok "done") stoppedEmptySession).1.recordingStatus =
      RecStatus.idle := by
  have h := uploadRecording_empty_noop (.ok "done") stoppedEmptySession rfl
  exact ⟨by rw [h.1], by rw [h.1]⟩

end ParticleSystem
